import Mathlib

/- Verification development for the pytsdl TSDL parser (pytsdl/parser.py and
pytsdl/tsdl.py). The definitions below are a shallow embedding of the
document materializer (_DocCreatorVisitor), of the document model value
objects, and of the identifier token rule; the theorems settle the listed
properties of the materializer against these definitions. -/

namespace Pytsdl

/-- A Python value as stored by the materializer: the result of the .value
attribute on a ConstNumber or LiteralString node. -/
inductive PyVal where
  | int (n : Int)
  | str (s : String)
deriving DecidableEq, Repr

/-- An error surfaced while materializing. parseError embeds
pytsdl.parser.ParseError; the other constructors embed the Python runtime
errors the source can raise (NameError for an undefined variable,
AttributeError for a missing attribute, TypeError for an unsupported
subscript, KeyError and IndexError for a missing key or index). -/
inductive PyErr where
  | parseError (msg : String)
  | nameError (name : String)
  | attributeError (msg : String)
  | typeError (msg : String)
  | keyError (key : String)
  | indexError
deriving DecidableEq, Repr

/-- pytsdl.tsdl.ByteOrder. -/
inductive ByteOrder where
  | NATIVE
  | LE
  | BE
deriving DecidableEq, Repr

/-- pytsdl.tsdl.Encoding. -/
inductive Encoding where
  | NONE
  | UTF8
  | ASCII
deriving DecidableEq, Repr

mutual
/-- One element of a PostfixExpr node list: an Identifier, a Dot, an Arrow,
or a UnaryExprSubscript. -/
inductive PostfixItem where
  | ident (s : String)
  | dot
  | arrow
  | subscriptItem (e : UnaryExprE)

/-- The .expr of a decoded UnaryExpr node: a PostfixExpr (list of items),
a ConstNumber, or a LiteralString. This is the value form every
value-assignment visitor receives (visit_ValueAssignment passes
node.value.expr). -/
inductive UnaryExprE where
  | postfixExpr (items : List PostfixItem)
  | constNumber (n : Int)
  | literalString (s : String)
end

/-- A Declarator node: the field name and the ordered subscript list, each
subscript given as the .value.expr of its UnaryExprSubscript node. -/
structure Declarator where
  name : String
  subscripts : List UnaryExprE

/-- One parsed enumerator: a bare Identifier or LiteralString label, an
EnumeratorValue (label = n), or an EnumeratorRange (label = low ... high). -/
inductive EnumeratorE where
  | bare (label : String)
  | value (label : String) (n : Int)
  | range (label : String) (low high : Int)

/-- Accessing .value on the decoded unary expression object: ConstNumber and
LiteralString are _SingleValue nodes and expose .value; PostfixExpr is a
_List node and has no value attribute, so Python raises AttributeError. -/
def uvalue : UnaryExprE → Except PyErr PyVal
  | .postfixExpr _ => .error (.attributeError "PostfixExpr object has no attribute value")
  | .constNumber n => .ok (.int n)
  | .literalString s => .ok (.str s)

/-- Accessing .value on one postfix item: only Identifier nodes expose it. -/
def item_value : PostfixItem → Except PyErr String
  | .ident s => .ok s
  | _ => .error (.attributeError "object has no attribute value")

/-- Evaluating value[0].value: PostfixExpr supports subscripting (it is a
_List) and its first element is an Identifier by the grammar; ConstNumber and
LiteralString define no subscript operation, so Python raises TypeError. -/
def usubscript0 : UnaryExprE → Except PyErr String
  | .postfixExpr [] => .error .indexError
  | .postfixExpr (it :: _) => item_value it
  | .constNumber _ => .error (.typeError "ConstNumber object is not subscriptable")
  | .literalString _ => .error (.typeError "LiteralString object is not subscriptable")

/-- The item walk of _DocCreatorVisitor._decode_unary: Identifier components
are collected, Dot items are skipped, anything else (Arrow or a nested
subscript) raises ParseError. -/
def decode_items : List PostfixItem → List String → Except PyErr (List String)
  | [], acc => .ok acc
  | .ident s :: rest, acc => decode_items rest (acc ++ [s])
  | .dot :: rest, acc => decode_items rest acc
  | _ :: _, _ => .error (.parseError "cannot decode unary expression")

/-- _DocCreatorVisitor._decode_unary: flattens a PostfixExpr into its ordered
identifier components; any other expression kind raises ParseError. -/
def decode_unary : UnaryExprE → Except PyErr (List String)
  | .postfixExpr items => decode_items items []
  | _ => .error (.parseError "cannot decode unary expression")

/-- True when w is a character prefix of s. -/
def starts_with (s w : String) : Bool :=
  w.data.isPrefixOf s.data

/-- _DocCreatorVisitor._to_bool: the source tests the lowered string with
re.match against true|false|1|0, which is a prefix match, then returns
whether the whole string equals true or 1. -/
def to_bool (s : String) : Except PyErr Bool :=
  let sl := s.toLower
  if ["true", "false", "1", "0"].any (fun p => starts_with sl p) then
    .ok (sl == "true" || sl == "1")
  else
    .error (.parseError ("wrong boolean: " ++ sl))

/-- _DocCreatorVisitor._byte_order_map. -/
def byte_order_map : List (String × ByteOrder) :=
  [("le", .LE), ("be", .BE), ("network", .BE), ("native", .NATIVE)]

/-- _DocCreatorVisitor._byte_order_from_str. -/
def byte_order_from_str (s : String) : Except PyErr ByteOrder :=
  match byte_order_map.lookup s with
  | some bo => .ok bo
  | none => .error (.parseError ("wrong byte order: " ++ s))

/-- _DocCreatorVisitor._base_map. -/
def base_map : List (String × Int) :=
  [("decimal", 10), ("dec", 10), ("d", 10), ("i", 10), ("u", 10),
   ("hexadecimal", 16), ("hex", 16), ("x", 16), ("X", 16), ("p", 16),
   ("octal", 8), ("oct", 8), ("o", 8),
   ("binary", 2), ("bin", 2), ("b", 2)]

/-- _DocCreatorVisitor._encoding_map. -/
def encoding_map : List (String × Encoding) :=
  [("none", .NONE), ("UTF8", .UTF8), ("ASCII", .ASCII)]

/-- _DocCreatorVisitor._encoding_from_str. -/
def encoding_from_str (s : String) : Except PyErr Encoding :=
  match encoding_map.lookup s with
  | some e => .ok e
  | none => .error (.parseError ("unknown encoding: " ++ s))

/-- str() of a stored value, for error messages. -/
def pyval_str : PyVal → String
  | .int n => toString n
  | .str s => s

/-- str() of an optional stored value. -/
def opt_pyval_str : Option PyVal → String
  | none => "None"
  | some v => pyval_str v

/-- pytsdl.tsdl.Integer with the defaults its constructor sets. The
materializer stores raw assigned values, so size and align keep the PyVal
that was assigned. -/
structure IntegerObj where
  signed : Bool := false
  byte_order : ByteOrder := .NATIVE
  base : Int := 10
  encoding : Encoding := .NONE
  align : PyVal := .int 1
  map : Option (List String) := none
  size : Option PyVal := none
deriving DecidableEq, Repr

/-- pytsdl.tsdl.FloatingPoint with its constructor defaults. -/
structure FloatingPointObj where
  exp_dig : Option PyVal := none
  mant_dig : Option PyVal := none
  align : PyVal := .int 1
  byte_order : ByteOrder := .NATIVE
deriving DecidableEq, Repr

/-- A materialized type object of pytsdl.tsdl: Integer, FloatingPoint,
String, Enum (whose integer attribute holds whatever the underlying alias
resolved to), Struct, Variant, Array or Sequence. -/
inductive Ty where
  | integer (i : IntegerObj)
  | floatingPoint (f : FloatingPointObj)
  | stringT (encoding : Encoding)
  | enumT (integer : Ty) (labels : List (String × Int × Int))
  | structT (align : Option Int) (fields : List (String × Ty))
  | variantT (tag : Option (List String)) (fields : List (String × Ty))
  | array (length : Int) (element : Ty)
  | sequence (length : List String) (element : Ty)

/-- pytsdl.tsdl.Event: its constructor leaves id, name, loglevel, context
and fields unset; visit_Event additionally sets stream_id to None before
walking the block. -/
structure EventObj where
  id : Option PyVal := none
  name : Option PyVal := none
  stream_id : Option PyVal := none
  loglevel : Option PyVal := none
  context : Option Ty := none
  fields : Option Ty := none

/-- pytsdl.tsdl.Stream: id defaults to 0; events is the ordered event list;
events_dict is only built by init_events_dict during finalization, keyed by
both event id and event name. -/
structure StreamObj where
  id : PyVal := .int 0
  packet_context : Option Ty := none
  event_header : Option Ty := none
  event_context : Option Ty := none
  events : List EventObj := []
  events_dict : List (Option PyVal × EventObj) := []

/-- pytsdl.tsdl.Clock with its constructor defaults. The uuid attribute
keeps the 32 hex digits accepted by the stdlib UUID constructor. -/
structure ClockObj where
  name : Option String := none
  uuid : Option String := none
  description : Option PyVal := none
  freq : Option PyVal := none
  precision : Option PyVal := none
  offset_s : Option PyVal := none
  offset : Option PyVal := none
  absolute : Bool := false

/-- pytsdl.tsdl.Doc, restricted to the clock and stream tables the claims
concern (trace and env are independent optional slots). Both tables are
insertion ordered. -/
structure DocObj where
  clocks : List (String × ClockObj) := []
  streams : List (PyVal × StreamObj) := []

/-- Ordered-dict assignment: replace the value of an existing key in place,
otherwise append the new pair at the end. -/
def assoc_set {α β : Type} [BEq α] : List (α × β) → α → β → List (α × β)
  | [], k, v => [(k, v)]
  | (k0, v0) :: rest, k, v =>
    if k0 == k then (k, v) :: rest else (k0, v0) :: assoc_set rest k v

/-- Folding a list of key = value assignments through one of the
_value_assign_* handlers, stopping at the first error (fail-fast). -/
def fold_assign {σ : Type} (f : σ → String → UnaryExprE → Except PyErr σ) :
    σ → List (String × UnaryExprE) → Except PyErr σ
  | s, [] => .ok s
  | s, (k, v) :: rest =>
    match f s k v with
    | .error e => .error e
    | .ok s2 => fold_assign f s2 rest

/-- _DocCreatorVisitor._value_assign_integer: size, signed, base, encoding,
align, byte_order and map assignments; any other key raises ParseError. In
the base branch a ConstNumber value is stored as is; a PostfixExpr value is
looked up in the base alias map and an unknown alias raises ParseError; a
LiteralString value matches neither branch and the function returns with the
object unchanged. -/
def value_assign_integer (i : IntegerObj) (key : String) (value : UnaryExprE) :
    Except PyErr IntegerObj :=
  if key == "size" then
    match uvalue value with
    | .error e => .error e
    | .ok v => .ok { i with size := some v }
  else if key == "signed" then
    match value with
    | .constNumber n =>
      match to_bool (toString n) with
      | .error e => .error e
      | .ok b => .ok { i with signed := b }
    | _ =>
      match usubscript0 value with
      | .error e => .error e
      | .ok s =>
        match to_bool s with
        | .error e => .error e
        | .ok b => .ok { i with signed := b }
  else if key == "base" then
    match value with
    | .constNumber n => .ok { i with base := n }
    | .postfixExpr items =>
      match usubscript0 (.postfixExpr items) with
      | .error e => .error e
      | .ok b =>
        match base_map.lookup b with
        | some bv => .ok { i with base := bv }
        | none => .error (.parseError ("invalid integer base: " ++ b))
    | .literalString _ => .ok i
  else if key == "encoding" then
    match usubscript0 value with
    | .error e => .error e
    | .ok s =>
      match encoding_from_str s with
      | .error e => .error e
      | .ok enc => .ok { i with encoding := enc }
  else if key == "align" then
    match uvalue value with
    | .error e => .error e
    | .ok v => .ok { i with align := v }
  else if key == "byte_order" then
    match usubscript0 value with
    | .error e => .error e
    | .ok bo =>
      match byte_order_from_str bo with
      | .error e => .error e
      | .ok b => .ok { i with byte_order := b }
  else if key == "map" then
    match decode_unary value with
    | .error e => .error e
    | .ok m =>
      match m with
      | [] => .error .indexError
      | m0 :: _ =>
        if m0 != "clock" then
          .error (.parseError ("integer maps to non-clock node: " ++ String.intercalate "." m))
        else
          .ok { i with map := some m }
  else
    .error (.parseError ("unknown integer assignment: " ++ key))

/-- _DocCreatorVisitor._value_assign_floating_point: exp_dig, mant_dig and
align are stored; in the byte_order branch the source decodes the byte order
but then assigns it to the undefined global name integer, so Python raises
NameError after the decode succeeds, and nothing is stored on the
floating-point object; any other key raises ParseError. -/
def value_assign_floating_point (fp : FloatingPointObj) (key : String) (value : UnaryExprE) :
    Except PyErr FloatingPointObj :=
  if key == "exp_dig" then
    match uvalue value with
    | .error e => .error e
    | .ok v => .ok { fp with exp_dig := some v }
  else if key == "mant_dig" then
    match uvalue value with
    | .error e => .error e
    | .ok v => .ok { fp with mant_dig := some v }
  else if key == "align" then
    match uvalue value with
    | .error e => .error e
    | .ok v => .ok { fp with align := v }
  else if key == "byte_order" then
    match usubscript0 value with
    | .error e => .error e
    | .ok bo =>
      match byte_order_from_str bo with
      | .error e => .error e
      | .ok _ => .error (.nameError "integer")
  else
    .error (.parseError ("unknown floating point assignment: " ++ key))

/-- _DocCreatorVisitor._value_assign_event. The source chains three
consecutive if statements (not elif) with a final no-op else bound to the
last one: each key test runs in order, the final else does nothing. The name
branch reads value.value directly, which exists for LiteralString and
ConstNumber values but raises AttributeError for a PostfixExpr value (the
parse of an identifier value). -/
def value_assign_event (ev : EventObj) (key : String) (value : UnaryExprE) :
    Except PyErr EventObj :=
  match (if key == "id" then
           match uvalue value with
           | .error e => .error e
           | .ok v => .ok { ev with id := some v }
         else .ok ev : Except PyErr EventObj) with
  | .error e => .error e
  | .ok ev1 =>
    match (if key == "name" then
             match uvalue value with
             | .error e => .error e
             | .ok v => .ok { ev1 with name := some v }
           else .ok ev1 : Except PyErr EventObj) with
    | .error e => .error e
    | .ok ev2 =>
      if key == "stream_id" then
        match uvalue value with
        | .error e => .error e
        | .ok v => .ok { ev2 with stream_id := some v }
      else .ok ev2

/-- _DocCreatorVisitor._value_assign_stream: only the id key is handled; any
other key silently passes. -/
def value_assign_stream (s : StreamObj) (key : String) (value : UnaryExprE) :
    Except PyErr StreamObj :=
  if key == "id" then
    match uvalue value with
    | .error e => .error e
    | .ok v => .ok { s with id := v }
  else .ok s

/-- An ASCII hex digit. -/
def is_hex_digit (c : Char) : Bool :=
  c.isDigit || (97 ≤ c.toNat && c.toNat ≤ 102) || (65 ≤ c.toNat && c.toNat ≤ 70)

/-- _DocCreatorVisitor._uuid_from_str applied to a stored value: the stdlib
UUID constructor strips the braces the caller adds and every hyphen, then
requires exactly 32 hex digits; anything else raises, which the source turns
into ParseError. An integer value never renders to 32 hex digits. -/
def uuid_from_val (v : PyVal) : Except PyErr String :=
  match v with
  | .str s =>
    let hexs := s.data.filter (fun c => c ≠ '-')
    if hexs.length == 32 && hexs.all is_hex_digit then
      .ok (String.mk hexs)
    else
      .error (.parseError ("wrong UUID: " ++ s))
  | .int n => .error (.parseError ("wrong UUID: " ++ toString n))

/-- _DocCreatorVisitor._value_assign_clock: name and absolute read
value[0].value (an identifier), uuid goes through the UUID parse, the other
known keys store value.value, and unknown keys silently pass. -/
def value_assign_clock (c : ClockObj) (key : String) (value : UnaryExprE) :
    Except PyErr ClockObj :=
  if key == "name" then
    match usubscript0 value with
    | .error e => .error e
    | .ok s => .ok { c with name := some s }
  else if key == "description" then
    match uvalue value with
    | .error e => .error e
    | .ok v => .ok { c with description := some v }
  else if key == "freq" then
    match uvalue value with
    | .error e => .error e
    | .ok v => .ok { c with freq := some v }
  else if key == "precision" then
    match uvalue value with
    | .error e => .error e
    | .ok v => .ok { c with precision := some v }
  else if key == "offset_s" then
    match uvalue value with
    | .error e => .error e
    | .ok v => .ok { c with offset_s := some v }
  else if key == "offset" then
    match uvalue value with
    | .error e => .error e
    | .ok v => .ok { c with offset := some v }
  else if key == "absolute" then
    match usubscript0 value with
    | .error e => .error e
    | .ok s =>
      match to_bool s with
      | .error e => .error e
      | .ok b => .ok { c with absolute := b }
  else if key == "uuid" then
    match uvalue value with
    | .error e => .error e
    | .ok v =>
      match uuid_from_val v with
      | .error e => .error e
      | .ok u => .ok { c with uuid := some u }
  else .ok c

/-- The visitor scope-store stack: each frame maps a one-letter kind prefix
concatenated with the declared name (the source stores prefix + name in one
dict per frame) to the materialized object. The head of the list is the
innermost frame; _resolve walks the stack innermost first. -/
abbrev ScopeStores := List (List (String × Ty))

/-- The kind name used in the unresolved-reference message. -/
def reftype (pfx : String) : String :=
  if pfx == "a" then "alias"
  else if pfx == "s" then "struct"
  else if pfx == "v" then "variant"
  else ""

/-- _DocCreatorVisitor._resolve: walk the scope stores from innermost
outward and return the first binding of prefix + name; a miss raises
ParseError. -/
def resolve_pfx (pfx name : String) : ScopeStores → Except PyErr Ty
  | [] => .error (.parseError ("cannot resolve " ++ reftype pfx ++ ": " ++ name))
  | store :: outer =>
    match store.lookup (pfx ++ name) with
    | some obj => .ok obj
    | none => resolve_pfx pfx name outer

/-- _DocCreatorVisitor._resolve_alias. -/
def resolve_alias (stores : ScopeStores) (name : String) : Except PyErr Ty :=
  resolve_pfx "a" name stores

/-- _DocCreatorVisitor._store on the current (innermost) frame, with the
alias prefix; the source would fail on an empty stack, which never occurs. -/
def store_alias (stores : ScopeStores) (name : String) (obj : Ty) : ScopeStores :=
  match stores with
  | [] => []
  | store :: outer => assoc_set store ("a" ++ name) obj :: outer

/-- _DocCreatorVisitor._integer_to_obj: fold the block assignments into a
fresh Integer, then require size to be set. -/
def integer_to_obj (assigns : List (String × UnaryExprE)) : Except PyErr IntegerObj :=
  match fold_assign value_assign_integer {} assigns with
  | .error e => .error e
  | .ok i =>
    if i.size = none then .error (.parseError "integer missing size")
    else .ok i

/-- _DocCreatorVisitor._floating_point_to_obj: fold the block assignments
into a fresh FloatingPoint, then require exp_dig and mant_dig. -/
def floating_point_to_obj (assigns : List (String × UnaryExprE)) :
    Except PyErr FloatingPointObj :=
  match fold_assign value_assign_floating_point {} assigns with
  | .error e => .error e
  | .ok fp =>
    if fp.exp_dig = none then .error (.parseError "floating point missing exponent digits")
    else if fp.mant_dig = none then .error (.parseError "floating point missing mantissa digits")
    else .ok fp

/-- _DocCreatorVisitor._string_to_obj: a bare string keeps encoding NONE; a
braced block holds one assignment whose key the source never examines and
whose value, read as value[0].value, is decoded as an encoding name. -/
def string_to_obj (enc : Option (String × UnaryExprE)) : Except PyErr Ty :=
  match enc with
  | none => .ok (.stringT .NONE)
  | some (_, v) =>
    match usubscript0 v with
    | .error e => .error e
    | .ok s =>
      match encoding_from_str s with
      | .error e => .error e
      | .ok e => .ok (.stringT e)

/-- The enumerator loop of _DocCreatorVisitor._enum_to_obj. cur starts at 0.
A bare label takes (cur, cur) and advances cur by one. An explicit value
sets cur to the value and stores (cur, cur) without advancing it. A range
checks low against high, stores (low, high) and sets cur to high + 1. Every
enumerator first checks its label for duplication. -/
def enum_labels : List EnumeratorE → Int → List (String × Int × Int) →
    Except PyErr (List (String × Int × Int))
  | [], _, labels => .ok labels
  | .bare label :: rest, cur, labels =>
    if labels.any (fun p => p.1 == label) then
      .error (.parseError ("duplicate enum label: " ++ label))
    else enum_labels rest (cur + 1) (labels ++ [(label, cur, cur)])
  | .value label n :: rest, _, labels =>
    if labels.any (fun p => p.1 == label) then
      .error (.parseError ("duplicate enum label: " ++ label))
    else enum_labels rest n (labels ++ [(label, n, n)])
  | .range label low high :: rest, _, labels =>
    if labels.any (fun p => p.1 == label) then
      .error (.parseError ("duplicate enum label: " ++ label))
    else if low > high then
      .error (.parseError ("invalid enum range: " ++ toString low ++ " > " ++ toString high))
    else enum_labels rest (high + 1) (labels ++ [(label, low, high)])

/-- _DocCreatorVisitor._enum_to_obj: resolve the underlying alias name, then
build the label table from the enumerator list. -/
def enum_to_obj (stores : ScopeStores) (intType : String)
    (enumerators : List EnumeratorE) : Except PyErr Ty :=
  match resolve_alias stores intType with
  | .error e => .error e
  | .ok integer =>
    match enum_labels enumerators 0 [] with
    | .error e => .error e
    | .ok labels => .ok (.enumT integer labels)

/-- The type-constructor forms covered by this development's top-level
slice: integer, floating_point, string and enum blocks (the non-compound
entries of _type_to_obj_map). -/
inductive TAst where
  | integerAst (assigns : List (String × UnaryExprE))
  | floatingPointAst (assigns : List (String × UnaryExprE))
  | stringAst (enc : Option (String × UnaryExprE))
  | enumAst (intType : String) (enumerators : List EnumeratorE)

/-- _DocCreatorVisitor._type_to_obj over the covered constructors. -/
def type_to_obj (stores : ScopeStores) : TAst → Except PyErr Ty
  | .integerAst a =>
    match integer_to_obj a with
    | .error e => .error e
    | .ok i => .ok (.integer i)
  | .floatingPointAst a =>
    match floating_point_to_obj a with
    | .error e => .error e
    | .ok f => .ok (.floatingPoint f)
  | .stringAst e => string_to_obj e
  | .enumAst it en => enum_to_obj stores it en

/-- _DocCreatorVisitor._subscript_to_obj: a PostfixExpr subscript yields a
Sequence whose length is the decoded dotted path, a ConstNumber subscript
yields an Array of that length, anything else raises ParseError; the given
element object becomes the new node's element. -/
def subscript_to_obj (s : UnaryExprE) (element : Ty) : Except PyErr Ty :=
  match s with
  | .postfixExpr items =>
    match decode_unary (.postfixExpr items) with
    | .error e => .error e
    | .ok path => .ok (.sequence path element)
  | .constNumber n => .ok (.array n element)
  | .literalString _ => .error (.parseError "invalid subscript type")

/-- The loop of _DocCreatorVisitor._decl_to_obj: with no subscripts the base
object is the field type; otherwise the first subscript is applied to the
base object and each later subscript wraps the object built so far. -/
def decl_subscripts_loop : List UnaryExprE → Ty → Except PyErr Ty
  | [], cur => .ok cur
  | s :: rest, cur =>
    match subscript_to_obj s cur with
    | .error e => .error e
    | .ok cur2 => decl_subscripts_loop rest cur2

/-- _DocCreatorVisitor._decl_to_obj. -/
def decl_to_obj (decl : Declarator) (base_obj : Ty) : Except PyErr Ty :=
  match decl.subscripts with
  | [] => .ok base_obj
  | s0 :: rest =>
    match subscript_to_obj s0 base_obj with
    | .error e => .error e
    | .ok cur => decl_subscripts_loop rest cur

/-- Append an event to the stream stored under the given id. -/
def assoc_append_event : List (PyVal × StreamObj) → PyVal → EventObj →
    List (PyVal × StreamObj)
  | [], _, _ => []
  | (k, s) :: rest, sid, ev =>
    if k == sid then (k, { s with events := s.events ++ [ev] }) :: rest
    else (k, s) :: assoc_append_event rest sid ev

/-- _DocCreatorVisitor.visit_Clock: materialize the block, require name and
freq, reject a duplicate clock name, then append to the ordered clock
table. -/
def visit_Clock (doc : DocObj) (assigns : List (String × UnaryExprE)) :
    Except PyErr DocObj :=
  match fold_assign value_assign_clock {} assigns with
  | .error e => .error e
  | .ok clock =>
    match clock.name with
    | none => .error (.parseError "clock block is missing name")
    | some name =>
      if clock.freq = none then .error (.parseError "clock block is missing frequency")
      else if doc.clocks.any (fun p => p.1 == name) then
        .error (.parseError ("duplicate clock: " ++ name))
      else .ok { doc with clocks := doc.clocks ++ [(name, clock)] }

/-- _DocCreatorVisitor.visit_Stream: materialize the block, reject a
duplicate stream id, then append to the ordered stream table. -/
def visit_Stream (doc : DocObj) (assigns : List (String × UnaryExprE)) :
    Except PyErr DocObj :=
  match fold_assign value_assign_stream {} assigns with
  | .error e => .error e
  | .ok stream =>
    if doc.streams.any (fun p => p.1 == stream.id) then
      .error (.parseError ("duplicate stream: " ++ pyval_str stream.id))
    else .ok { doc with streams := doc.streams ++ [(stream.id, stream)] }

/-- _DocCreatorVisitor.visit_Event: materialize the block (stream_id starts
as None), require id and name, default the stream id to 0, then append the
event to that stream or fail when no such stream exists. -/
def visit_Event (doc : DocObj) (assigns : List (String × UnaryExprE)) :
    Except PyErr DocObj :=
  match fold_assign value_assign_event {} assigns with
  | .error e => .error e
  | .ok event =>
    if event.id = none then .error (.parseError "event is missing ID")
    else if event.name = none then .error (.parseError "event is missing name")
    else
      let sid := match event.stream_id with
        | none => PyVal.int 0
        | some v => v
      if doc.streams.any (fun p => p.1 == sid) then
        .ok { doc with streams := assoc_append_event doc.streams sid event }
      else
        .error (.parseError ("stream " ++ pyval_str sid ++ " not found for event " ++
          opt_pyval_str event.name))

/-- The per-stream duplicate scan of visit_Top: walk the events in order
keeping the names and ids already seen; a repeated name or a repeated id
raises the duplicate-event ParseError. -/
def check_stream_events : List EventObj → List (Option PyVal) → List (Option PyVal) →
    Except PyErr Unit
  | [], _, _ => .ok ()
  | e :: rest, enames, eids =>
    if e.name ∈ enames then
      .error (.parseError ("duplicate event: " ++ opt_pyval_str e.name))
    else if e.id ∈ eids then
      .error (.parseError ("duplicate event: " ++ opt_pyval_str e.id))
    else check_stream_events rest (e.name :: enames) (e.id :: eids)

/-- Stream.init_events_dict: index the stream's events by id and by name. -/
def init_events_dict (s : StreamObj) : StreamObj :=
  { s with events_dict :=
      s.events.foldl (fun d ev => assoc_set (assoc_set d ev.id ev) ev.name ev) [] }

/-- The finalization loop of visit_Top over the stream table: scan each
stream's events for duplicate names and ids, then build its lookup dict. -/
def finalize_streams : List (PyVal × StreamObj) → Except PyErr (List (PyVal × StreamObj))
  | [] => .ok []
  | (k, s) :: rest =>
    match check_stream_events s.events [] [] with
    | .error e => .error e
    | .ok _ =>
      match finalize_streams rest with
      | .error e => .error e
      | .ok rest2 => .ok ((k, init_events_dict s) :: rest2)

/-- One entry of the top-level scope in this development's slice: a file
level typealias or a clock, stream or event block of value assignments. -/
inductive TopEntry where
  | typeAliasE (t : TAst) (name : String)
  | clockE (assigns : List (String × UnaryExprE))
  | streamE (assigns : List (String × UnaryExprE))
  | eventE (assigns : List (String × UnaryExprE))

/-- An entry of the visitor object stack. -/
inductive VObj where
  | doc (d : DocObj)
  | clock (c : ClockObj)
  | stream (s : StreamObj)
  | event (e : EventObj)

/-- The mutable state a _DocCreatorVisitor instance owns: the object stack
and the scope-store stack. -/
structure VisitorState where
  objs : List VObj := []
  scopeStores : ScopeStores := []

/-- _DocCreatorVisitor._reset_state: both stacks are replaced by fresh empty
lists, whatever the instance held before. -/
def reset_state (_st : VisitorState) : VisitorState :=
  { objs := [], scopeStores := [] }

/-- The entry walk of _visit_scope at top level: a typealias materializes
its type against the current stores and binds the alias in the innermost
frame; clock, stream and event blocks extend the document. -/
def top_entries_run : ScopeStores → DocObj → List TopEntry → Except PyErr DocObj
  | _, doc, [] => .ok doc
  | stores, doc, .typeAliasE t name :: rest =>
    match type_to_obj stores t with
    | .error e => .error e
    | .ok obj => top_entries_run (store_alias stores name obj) doc rest
  | stores, doc, .clockE a :: rest =>
    match visit_Clock doc a with
    | .error e => .error e
    | .ok doc2 => top_entries_run stores doc2 rest
  | stores, doc, .streamE a :: rest =>
    match visit_Stream doc a with
    | .error e => .error e
    | .ok doc2 => top_entries_run stores doc2 rest
  | stores, doc, .eventE a :: rest =>
    match visit_Event doc a with
    | .error e => .error e
    | .ok doc2 => top_entries_run stores doc2 rest

/-- _DocCreatorVisitor.visit_Top: reset the instance state, walk the top
scope with a fresh frame pushed on the (now empty) store stack to build a
fresh Doc, then require at least one clock and one stream and run the
per-stream duplicate scan and event-dict initialization. -/
def visit_Top (st : VisitorState) (entries : List TopEntry) : Except PyErr DocObj :=
  let st0 := reset_state st
  match top_entries_run ([] :: st0.scopeStores) {} entries with
  | .error e => .error e
  | .ok doc =>
    if doc.clocks.isEmpty then .error (.parseError "no clocks defined")
    else if doc.streams.isEmpty then .error (.parseError "no streams defined")
    else
      match finalize_streams doc.streams with
      | .error e => .error e
      | .ok streams2 => .ok { doc with streams := streams2 }

/-- The seven reserved words of the Identifier rule. -/
def reserved_words : List String :=
  ["struct", "variant", "enum", "integer", "floating_point", "string", "typealias"]

/-- The character-class part of the Identifier regular expression: one
letter or underscore followed by letters, underscores and digits. -/
def ident_charset (s : String) : Bool :=
  match s.data with
  | [] => false
  | c :: cs => (c.isAlpha || c == '_') && cs.all (fun d => d.isAlpha || d == '_' || d.isDigit)

/-- The Identifier grammar: the regular expression guards the character
class with a negative lookahead over the seven reserved words written with
no word boundary, so the match fails exactly when some reserved word is a
character prefix of the candidate. -/
def identifier_accepts (s : String) : Bool :=
  ident_charset s && !(reserved_words.any (fun w => starts_with s w))

/-- The runtime class of a value held in an Event's fields slot, as Python
type() reports it: type() returns the exact class, and the materializer
only ever instantiates the concrete classes of tsdl.py (Struct, Variant,
Integer, FloatingPoint, String, Enum, Array, Sequence), never the abstract
_StructVariant base. -/
inductive PyClassTag where
  | NoneTypeCls
  | StructVariantBaseCls
  | IntegerCls
  | FloatingPointCls
  | StringCls
  | EnumCls
  | StructCls
  | VariantCls
  | ArrayCls
  | SequenceCls
deriving DecidableEq, Repr

/-- type() of a materialized type object. -/
def ty_class : Ty → PyClassTag
  | .integer _ => .IntegerCls
  | .floatingPoint _ => .FloatingPointCls
  | .stringT _ => .StringCls
  | .enumT _ _ => .EnumCls
  | .structT _ _ => .StructCls
  | .variantT _ _ => .VariantCls
  | .array _ _ => .ArrayCls
  | .sequence _ _ => .SequenceCls

/-- type() of the fields attribute of an Event (None until a type
assignment stores a materialized object there). -/
def fields_class : Option Ty → PyClassTag
  | none => .NoneTypeCls
  | some t => ty_class t

/-- _StructVariant.__getitem__: look the key up in the fields dict (KeyError
when absent); a non-struct, non-variant object has no fields attribute. -/
def struct_variant_getitem (t : Ty) (key : String) : Except PyErr Ty :=
  match t with
  | .structT _ fields =>
    match fields.lookup key with
    | some v => .ok v
    | none => .error (.keyError key)
  | .variantT _ fields =>
    match fields.lookup key with
    | some v => .ok v
    | none => .error (.keyError key)
  | _ => .error (.attributeError "object has no attribute fields")

/-- Event.__getitem__: the guard tests whether type(self.fields) is exactly
the _StructVariant base class and only then subscripts the fields object;
otherwise it raises TypeError with the unformatted message of the source. -/
def event_getitem (fields : Option Ty) (key : String) : Except PyErr Ty :=
  if fields_class fields = PyClassTag.StructVariantBaseCls then
    match fields with
    | some t => struct_variant_getitem t key
    | none => .error (.typeError "NoneType is not subscriptable")
  else
    .error (.typeError "\x7b\x7d is not subscriptable")

/-- _DocCreatorVisitor._type_assign_event: the fields and context keys store
the materialized object; an unknown key silently passes. -/
def type_assign_event (ev : EventObj) (key : String) (obj : Ty) : EventObj :=
  if key == "fields" then { ev with fields := some obj }
  else if key == "context" then { ev with context := some obj }
  else ev

/-- A variant object under Python object identity: the tag attribute is held
directly, the fields ordered dict is held by reference into a heap of
dicts. This refines tsdl.Variant for reasoning about sharing. -/
structure HVariant where
  tag : Option (List String) := none
  fieldsRef : Nat := 0
deriving DecidableEq, Repr

/-- The heap of fields dicts; a reference is an index. Each dict maps an
option name to a reference to its materialized type object. -/
abbrev FieldsHeap := List (List (String × Nat))

/-- Reading the dict a reference designates. -/
def heap_get (h : FieldsHeap) (r : Nat) : List (String × Nat) :=
  h.getD r []

/-- Mutating the dict a reference designates in place. -/
def heap_set (h : FieldsHeap) (r : Nat) (d : List (String × Nat)) : FieldsHeap :=
  h.set r d

/-- copy.copy on a Variant: a new object whose attributes hold the same
values, so the tag is copied and the fields reference still designates the
dict of the template. -/
def copy_copy (v : HVariant) : HVariant :=
  { tag := v.tag, fieldsRef := v.fieldsRef }

/-- _DocCreatorVisitor._variant_ref_to_obj after resolution: take a shallow
copy of the resolved named variant and assign the decoded tag of this
reference to the copy. -/
def variant_ref_to_obj (template : HVariant) (tagPath : List String) : HVariant :=
  let vc := copy_copy template
  { vc with tag := some tagPath }

/-- True on an ok result. -/
def except_is_ok {ε α : Type} : Except ε α → Bool
  | .ok _ => true
  | .error _ => false

/-- A resolved unsigned 8-bit integer alias used by the concrete theorems. -/
def ex_u8 : IntegerObj :=
  { size := some (.int 8) }

/-- The per-stream duplicate scan succeeds exactly when, beyond the names
and ids already seen, the walked events carry pairwise distinct names and
pairwise distinct ids. -/
theorem check_stream_events_ok_iff (evs : List EventObj) (enames eids : List (Option PyVal)) :
    check_stream_events evs enames eids = .ok () ↔
      ((evs.map (fun e => e.name)).Nodup ∧ (∀ e ∈ evs, e.name ∉ enames)
        ∧ (evs.map (fun e => e.id)).Nodup ∧ (∀ e ∈ evs, e.id ∉ eids)) := by
  induction evs generalizing enames eids with
  | nil => simp [check_stream_events]
  | cons e rest ih =>
    by_cases h1 : e.name ∈ enames
    · refine iff_of_false ?_ ?_
      · simp [check_stream_events, h1]
      · rintro ⟨-, hfresh, -, -⟩
        exact hfresh e (List.mem_cons_self e rest) h1
    · by_cases h2 : e.id ∈ eids
      · refine iff_of_false ?_ ?_
        · simp [check_stream_events, h1, h2]
        · rintro ⟨-, -, -, hfresh⟩
          exact hfresh e (List.mem_cons_self e rest) h2
      · simp only [check_stream_events, if_neg h1, if_neg h2]
        rw [ih]
        constructor
        · rintro ⟨hn, hfn, hi, hfi⟩
          refine ⟨?_, ?_, ?_, ?_⟩
          · rw [List.map_cons, List.nodup_cons]
            refine ⟨?_, hn⟩
            rw [List.mem_map]
            rintro ⟨x, hx, hxe⟩
            exact (hfn x hx) (by simp [hxe])
          · intro x hx
            rcases List.mem_cons.mp hx with h | h
            · subst h; exact h1
            · intro hmem
              exact (hfn x h) (List.mem_cons_of_mem _ hmem)
          · rw [List.map_cons, List.nodup_cons]
            refine ⟨?_, hi⟩
            rw [List.mem_map]
            rintro ⟨x, hx, hxe⟩
            exact (hfi x hx) (by simp [hxe])
          · intro x hx
            rcases List.mem_cons.mp hx with h | h
            · subst h; exact h2
            · intro hmem
              exact (hfi x h) (List.mem_cons_of_mem _ hmem)
        · rintro ⟨hn, hfn, hi, hfi⟩
          rw [List.map_cons, List.nodup_cons, List.mem_map] at hn hi
          refine ⟨hn.2, ?_, hi.2, ?_⟩
          · intro x hx hmem
            rcases List.mem_cons.mp hmem with h | h
            · exact hn.1 ⟨x, hx, h⟩
            · exact (hfn x (List.mem_cons_of_mem _ hx)) h
          · intro x hx hmem
            rcases List.mem_cons.mp hmem with h | h
            · exact hi.1 ⟨x, hx, h⟩
            · exact (hfi x (List.mem_cons_of_mem _ hx)) h

/-- Finalization succeeds exactly when the duplicate scan accepts every
stream of the table. -/
theorem finalize_streams_ok_iff (ss : List (PyVal × StreamObj)) :
    except_is_ok (finalize_streams ss) = true ↔
      ∀ p ∈ ss, check_stream_events p.2.events [] [] = .ok () := by
  induction ss with
  | nil => simp [finalize_streams, except_is_ok]
  | cons p rest ih =>
    rcases p with ⟨k, s⟩
    rcases h1 : check_stream_events s.events [] [] with e | u
    · refine iff_of_false ?_ ?_
      · simp [finalize_streams, h1, except_is_ok]
      · intro hall
        have := hall (k, s) (List.mem_cons_self _ _)
        rw [h1] at this
        exact Except.noConfusion this
    · have hsame : finalize_streams ((k, s) :: rest) =
          (match finalize_streams rest with
           | .error e => .error e
           | .ok rest2 => .ok ((k, init_events_dict s) :: rest2)) := by
        simp [finalize_streams, h1]
      rcases h2 : finalize_streams rest with e | r2
      · rw [hsame, h2]
        refine iff_of_false (by simp [except_is_ok]) ?_
        intro hall
        have h3 : except_is_ok (finalize_streams rest) = true :=
          ih.mpr (fun q hq => hall q (List.mem_cons_of_mem _ hq))
        rw [h2] at h3
        simp [except_is_ok] at h3
      · rw [hsame, h2]
        constructor
        · intro _ q hq
          rcases List.mem_cons.mp hq with h | h
          · subst h
            cases u
            exact h1
          · exact (ih.mp (by rw [h2]; rfl)) q h
        · intro _
          rfl

/-- Claim C1: on the declarator of int a[2][3] the materializer does not
nest the subscripts outermost first. The loop of _decl_to_obj applies the
first subscript to the base type and wraps each later subscript around the
object built so far, so the last subscript ends outermost: the result is an
Array of length 3 whose element is an Array of length 2 whose element is the
resolved int alias, not Array 2 of Array 3. -/
theorem c1_subscripts_nest_innermost_first :
    decl_to_obj ⟨"a", [.constNumber 2, .constNumber 3]⟩ (.integer ex_u8)
      = .ok (.array 3 (.array 2 (.integer ex_u8))) := rfl

/-- Claim C2: after the explicit-value enumerator B = 10 the loop of
_enum_to_obj does not advance the counter, so the following bare label C
receives 10 again rather than 11: A, B = 10, C materializes as A = (0, 0),
B = (10, 10), C = (10, 10), both standalone and through enum_to_obj with the
underlying alias resolved from the scope stores. -/
theorem c2_enum_auto_increment_after_explicit_value :
    enum_labels [.bare "A", .value "B" 10, .bare "C"] 0 []
      = .ok [("A", 0, 0), ("B", 10, 10), ("C", 10, 10)]
    ∧ enum_to_obj [[("au8", .integer ex_u8)]] "u8" [.bare "A", .value "B" 10, .bare "C"]
      = .ok (.enumT (.integer ex_u8) [("A", 0, 0), ("B", 10, 10), ("C", 10, 10)]) :=
  ⟨rfl, rfl⟩

/-- Claim C3: a byte_order assignment inside a floating_point block never
succeeds: the source decodes the byte order and then assigns it to the
undefined global name integer, so a valid identifier value ends in NameError
and no byte order is ever stored on the FloatingPoint record. -/
theorem c3_floating_point_byte_order_never_stored :
    value_assign_floating_point {} "byte_order" (.postfixExpr [.ident "le"])
      = .error (.nameError "integer")
    ∧ ∀ (fp : FloatingPointObj) (v : UnaryExprE),
        except_is_ok (value_assign_floating_point fp "byte_order" v) = false := by
  refine ⟨rfl, ?_⟩
  intro fp v
  have hnf : value_assign_floating_point fp "byte_order" v =
      (match usubscript0 v with
       | .error e => .error e
       | .ok bo =>
         match byte_order_from_str bo with
         | .error e => .error e
         | .ok _ => .error (.nameError "integer")) := rfl
  rcases h1 : usubscript0 v with e | bo
  · simp [hnf, h1, except_is_ok]
  · rcases h2 : byte_order_from_str bo with e | b
    · simp [hnf, h1, h2, except_is_ok]
    · simp [hnf, h1, h2, except_is_ok]

/-- Claim C4: in _value_assign_event the literal-string form of the name
assignment stores the name (so the later missing-name check passes), but the
identifier form reaches value.value on a PostfixExpr node, which has no
value attribute, and raises AttributeError instead of storing the name. -/
theorem c4_event_name_identifier_form_fails :
    value_assign_event {} "name" (.postfixExpr [.ident "my_event"])
      = .error (.attributeError "PostfixExpr object has no attribute value")
    ∧ value_assign_event {} "name" (.literalString "my_event")
      = .ok { name := some (.str "my_event") }
    ∧ (value_assign_event {} "name" (.literalString "my_event")
        = .ok { name := some (.str "my_event") } →
        ({ name := some (.str "my_event") } : EventObj).name ≠ none) :=
  ⟨rfl, rfl, fun _ => by simp⟩

/-- Claim C5: _variant_ref_to_obj takes a shallow copy of the resolved named
variant, so every reference carries its own tag but all references and the
template designate the same fields ordered dict: mutating the option list
through one reference is visible through the other reference and through the
template. -/
theorem c5_variant_refs_share_option_list :
    (∀ (template : HVariant) (t1 t2 : List String),
      (variant_ref_to_obj template t1).fieldsRef = template.fieldsRef
      ∧ (variant_ref_to_obj template t1).tag = some t1
      ∧ (variant_ref_to_obj template t2).fieldsRef = (variant_ref_to_obj template t1).fieldsRef)
    ∧ (let tmpl : HVariant := { tag := none, fieldsRef := 0 }
       let v1 := variant_ref_to_obj tmpl ["ta"]
       let v2 := variant_ref_to_obj tmpl ["tb"]
       let h0 : FieldsHeap := [[("x", 0)]]
       let h1 := heap_set h0 v1.fieldsRef (heap_get h0 v1.fieldsRef ++ [("y", 1)])
       heap_get h1 v2.fieldsRef = [("x", 0), ("y", 1)]
       ∧ heap_get h1 tmpl.fieldsRef = [("x", 0), ("y", 1)]
       ∧ v1.tag = some ["ta"] ∧ v2.tag = some ["tb"] ∧ v1.tag ≠ v2.tag) :=
  ⟨fun _ _ _ => ⟨rfl, rfl, rfl⟩, rfl, rfl, rfl, rfl, by decide⟩

/-- Claim C6: the Identifier rule writes its reserved-word lookahead with no
word boundary, so a candidate that merely begins with a reserved word is
rejected: structure, enumeration and string_field all match the character
class and are not reserved words, yet the grammar refuses them, while an
ordinary identifier is accepted. -/
theorem c6_identifier_reserved_prefix_rejected :
    identifier_accepts "structure" = false
    ∧ ident_charset "structure" = true
    ∧ reserved_words.contains "structure" = false
    ∧ identifier_accepts "enumeration" = false
    ∧ identifier_accepts "string_field" = false
    ∧ identifier_accepts "hello" = true
    ∧ identifier_accepts "struct" = false :=
  ⟨rfl, rfl, rfl, rfl, rfl, rfl, rfl⟩

/-- Claim C7 counterexample: the constant integer 7 is not one of 2, 8, 10,
16, yet the base assignment succeeds and stores 7, instead of failing with
the invalid-base error the claim requires. -/
theorem c7_base_constant_unvalidated :
    value_assign_integer {} "base" (.constNumber 7) = .ok { base := 7 }
    ∧ ([2, 8, 10, 16] : List Int).contains 7 = false :=
  ⟨rfl, rfl⟩

/-- Claim C7 as amended: a constant integer base is stored as given, with no
validation against 2, 8, 10 and 16; an identifier base is mapped through the
accepted alias set, and an identifier outside it fails with the invalid-base
ParseError. -/
theorem c7_base_amended (i : IntegerObj) (n : Int) (s : String) :
    value_assign_integer i "base" (.constNumber n) = .ok { i with base := n }
    ∧ (∀ b, base_map.lookup s = some b →
        value_assign_integer i "base" (.postfixExpr [.ident s]) = .ok { i with base := b })
    ∧ (base_map.lookup s = none →
        value_assign_integer i "base" (.postfixExpr [.ident s]) =
          .error (.parseError ("invalid integer base: " ++ s))) := by
  have hnf : value_assign_integer i "base" (.postfixExpr [.ident s]) =
      (match base_map.lookup s with
       | some bv => .ok { i with base := bv }
       | none => .error (.parseError ("invalid integer base: " ++ s))) := rfl
  refine ⟨rfl, ?_, ?_⟩
  · intro b hb
    rw [hnf, hb]
  · intro hb
    rw [hnf, hb]

/-- Claim C8: finalization of the stream table succeeds exactly when every
stream's events carry pairwise distinct names and pairwise distinct ids; a
stream with a repeated event name or id makes the scan fail with the
duplicate-event error, so no document is returned. -/
theorem c8_stream_event_uniqueness (ss : List (PyVal × StreamObj)) :
    except_is_ok (finalize_streams ss) = true ↔
      ∀ p ∈ ss, ((p.2.events.map (fun e => e.name)).Nodup
        ∧ (p.2.events.map (fun e => e.id)).Nodup) := by
  rw [finalize_streams_ok_iff]
  refine forall_congr' fun p => imp_congr_right fun _ => ?_
  rw [check_stream_events_ok_iff]
  simp

/-- Claim C9: visit_Top begins by resetting the visitor state, so the
document produced from a top-level scope does not depend on anything a
visitor instance held before the call; with Parser.parse also building a
fresh visitor per call, parsing the same source twice yields structurally
equal documents. -/
theorem c9_parse_state_independent (st1 st2 : VisitorState) (entries : List TopEntry) :
    visit_Top st1 entries = visit_Top st2 entries := rfl

/-- Claim C10: Event subscripting always raises TypeError: the guard of
Event.__getitem__ compares the exact runtime class of the fields attribute
with the abstract _StructVariant base, while the fields slot only ever holds
None or a concrete materialized object (Struct, Variant or another concrete
class stored by _type_assign_event), whose exact class is never the base. -/
theorem c10_event_getitem_always_type_error (fields : Option Ty) (ev : EventObj)
    (obj : Ty) (key : String) :
    event_getitem fields key = .error (.typeError "\x7b\x7d is not subscriptable")
    ∧ event_getitem (type_assign_event ev "fields" obj).fields key
        = .error (.typeError "\x7b\x7d is not subscriptable") := by
  constructor
  · cases fields with
    | none => rfl
    | some t => cases t <;> rfl
  · show event_getitem (some obj) key = _
    cases obj <;> rfl

end Pytsdl
